import Mathlib

/-!
# Strategy form validator and report generator: a shallow embedding

This file embeds the logical core of the single-page strategy-configurator
app: the `strategySchema` zod validator, the static lookup tables
(`indicatorOptions`, `riskNotes`, `automationTips`, `sessionCharacteristics`),
the `buildStrategy` report builder and the `handleGenerate` flow that parses
the form state and surfaces the first validation issue message.

Modelling conventions:
* JavaScript numbers are modelled as rationals (`ℚ`); the numeric literals of
  the source (`0.1`, `1.2`, `1.5`, `2.8`, ...) are exact decimals here.
* `Number.prototype.toFixed` is modelled as exact decimal rounding, half away
  from zero (ECMA ToFixed first takes the absolute value and on a tie picks
  the larger integer), and `Number(x.toFixed(2))` followed by template
  interpolation is modelled by `renderCents`, which drops trailing zeros the
  way JS number-to-string does for such values.
* The zod object schema checks each field of the shape in declaration order
  and collects every issue; `handleGenerate` reports `err.issues[0].message`.
  `strategyIssues` reproduces the issue list in that order, with the zod
  default English messages, and `derive` returns the report on an empty
  issue list and the message of the first issue otherwise.
* The form state is typed, so the input universe is a record with string
  enum fields, rational number fields and a list of strings; this covers
  every malformed value the form can actually hold (out-of-range numbers,
  empty indicator list, arbitrary enum strings).
-/

namespace Strategy

/-- The five indicator options offered by the form (`indicatorOptions`). -/
def indicatorOptions : List String :=
  ["Média Móvel Exponencial (EMA)",
   "Índice de Força Relativa (RSI)",
   "Bandas de Bollinger",
   "Parabolic SAR",
   "MACD"]

/-- The `profile` enum values of `strategySchema`. -/
def profileValues : List String := ["Scalping", "Day Trade", "Swing"]

/-- The `session` enum values of `strategySchema`. -/
def sessionValues : List String := ["Londres", "Nova York", "Tóquio"]

/-- The `automationLevel` enum values of `strategySchema`. -/
def automationValues : List String := ["Manual", "Semi-Autônomo", "Total"]

/-- The `riskNotes` record; a missing key renders as JS `undefined`. -/
def riskNotes (p : String) : String :=
  if p = "Scalping" then "Aproveite spreads baixos e priorize execução em contas ECN."
  else if p = "Day Trade" then "Combine confirmação de tendência com filtro de volatilidade."
  else if p = "Swing" then "Busque confluência em timeframes H4 e D1, validando suporte/resistência."
  else "undefined"

/-- The `automationTips` record; a missing key renders as JS `undefined`. -/
def automationTips (a : String) : String :=
  if a = "Manual" then "Ideal para traders discricionários que buscam validar regras."
  else if a = "Semi-Autônomo" then "Automatize entradas/saídas e mantenha supervisão humana para ajustes."
  else if a = "Total" then "Garanta backtests robustos em M1/M5 e monitore métricas de drawdown semanal."
  else "undefined"

/-- The `sessionCharacteristics` record; a missing key renders as JS `undefined`. -/
def sessionCharacteristics (s : String) : String :=
  if s = "Londres" then "Alta liquidez em pares EUR/GBP, volatilidade consistente."
  else if s = "Nova York" then "Maior volume em USD, ideal para continuidades ou reversões pós-Londres."
  else if s = "Tóquio" then "Mercado mais técnico, spreads mais altos, pares JPY responsivos."
  else "undefined"

/-- The `StrategyInput` shape: the typed form state fed to `strategySchema.parse`. -/
structure StrategyInput where
  profile : String
  capital : ℚ
  riskPerTrade : ℚ
  indicators : List String
  session : String
  automationLevel : String
deriving DecidableEq

/-- A single-quote character, used in the zod enum error messages. -/
def sq : String := String.singleton (Char.ofNat 39)

/-- zod quotes each string option when listing the expected enum values. -/
def quoted (v : String) : String := sq ++ v ++ sq

/-- the zod default `invalid_enum_value` message. -/
def enumErrorMessage (expected : List String) (received : String) : String :=
  "Invalid enum value. Expected "
    ++ String.intercalate " | " (expected.map quoted)
    ++ ", received " ++ quoted received

/-- the zod default message for `z.number().min(100)`. -/
def capitalTooSmallMsg : String := "Number must be greater than or equal to 100"

/-- the zod default message for `z.number().min(0.1)`. -/
def riskTooSmallMsg : String := "Number must be greater than or equal to 0.1"

/-- the zod default message for `z.number().max(5)`. -/
def riskTooBigMsg : String := "Number must be less than or equal to 5"

/-- the zod default message for `z.array(...).min(1)`. -/
def indicatorsTooSmallMsg : String := "Array must contain at least 1 element(s)"

/-- The issues `strategySchema.parse` collects, in shape-declaration order:
`profile`, `capital`, `riskPerTrade` (min then max), `indicators`, `session`,
`automationLevel`.  zod does not stop at the first failing field; the list
holds one issue per failing check. -/
def strategyIssues (i : StrategyInput) : List String :=
  (if i.profile ∈ profileValues then [] else [enumErrorMessage profileValues i.profile])
    ++ (if i.capital < 100 then [capitalTooSmallMsg] else [])
    ++ ((if i.riskPerTrade < 0.1 then [riskTooSmallMsg] else [])
        ++ (if 5 < i.riskPerTrade then [riskTooBigMsg] else []))
    ++ (if i.indicators.length < 1 then [indicatorsTooSmallMsg] else [])
    ++ (if i.session ∈ sessionValues then [] else [enumErrorMessage sessionValues i.session])
    ++ (if i.automationLevel ∈ automationValues then []
        else [enumErrorMessage automationValues i.automationLevel])

/-- ECMA `ToFixed` rounding to an integer: take the absolute value, round to
the nearest integer picking the larger on a tie, restore the sign. -/
def toFixedRound (x : ℚ) : ℤ :=
  if x < 0 then -⌊-x + 1 / 2⌋ else ⌊x + 1 / 2⌋

/-- `riskCapital` of `buildStrategy`: `input.capital * input.riskPerTrade / 100`. -/
def riskCapitalOf (i : StrategyInput) : ℚ := i.capital * i.riskPerTrade / 100

/-- `stopLossPips` of `buildStrategy`: 8 for Scalping, 20 for Day Trade, 45 otherwise. -/
def stopLossPipsOf (i : StrategyInput) : ℤ :=
  if i.profile = "Scalping" then 8 else if i.profile = "Day Trade" then 20 else 45

/-- `takeProfitMultiplier` of `buildStrategy`: 1.2 / 2 / 2.8 by profile. -/
def takeProfitMultiplierOf (i : StrategyInput) : ℚ :=
  if i.profile = "Scalping" then 1.2 else if i.profile = "Day Trade" then 2 else 2.8

/-- The take-profit distance as rendered: `(stopLossPips * takeProfitMultiplier).toFixed(0)`. -/
def takeProfitPipsOf (i : StrategyInput) : ℤ :=
  toFixedRound ((stopLossPipsOf i : ℚ) * takeProfitMultiplierOf i)

/-- The lot size in hundredths: `(riskCapital / (stopLossPips * 1.5)).toFixed(2)`
scaled by 100, i.e. the integer `n` with `Number(....toFixed(2)) = n / 100`. -/
def lotSizeCentsOf (i : StrategyInput) : ℤ :=
  toFixedRound (riskCapitalOf i / ((stopLossPipsOf i : ℚ) * 1.5) * 100)

/-- `lotSize` of `buildStrategy`: `Number((riskCapital / (stopLossPips * 1.5)).toFixed(2))`. -/
def lotSizeOf (i : StrategyInput) : ℚ := (lotSizeCentsOf i : ℚ) / 100

/-- Zero-padding of the fractional part for a 2-decimal rendering. -/
def pad2 (m : ℕ) : String := if m < 10 then "0" ++ toString m else toString m

/-- `x.toFixed(2)` as a string (always two decimals). -/
def toFixed2 (x : ℚ) : String :=
  (if toFixedRound (x * 100) < 0 then "-" else "")
    ++ toString ((toFixedRound (x * 100)).natAbs / 100)
    ++ "." ++ pad2 ((toFixedRound (x * 100)).natAbs % 100)

/-- `x.toFixed(0)` as a string. -/
def toFixed0 (x : ℚ) : String := toString (toFixedRound x)

/-- JS template interpolation of the number `n / 100` (`n` an integer number
of hundredths): an integer renders with no decimal point, and trailing
fractional zeros are dropped. -/
def renderCents (n : ℤ) : String :=
  (if n < 0 then "-" else "")
    ++ toString (n.natAbs / 100)
    ++ (if n.natAbs % 100 = 0 then ""
        else if n.natAbs % 10 = 0 then "." ++ toString (n.natAbs % 100 / 10)
        else "." ++ pad2 (n.natAbs % 100))

/-- `buildStrategy`: the report template literal, line for line. -/
def buildStrategy (i : StrategyInput) : String :=
  "Estratégia " ++ i.profile ++ " " ++ i.session ++ "\n"
    ++ "- Indicadores principais: " ++ String.intercalate ", " i.indicators ++ "\n"
    ++ "- Sessão: " ++ sessionCharacteristics i.session ++ "\n"
    ++ "- Risco por trade: " ++ toFixed2 i.riskPerTrade ++ "% ("
    ++ toFixed2 (riskCapitalOf i) ++ " USD)\n"
    ++ "- Stop loss médio: " ++ toString (stopLossPipsOf i) ++ " pips | Take profit: "
    ++ toFixed0 ((stopLossPipsOf i : ℚ) * takeProfitMultiplierOf i) ++ " pips\n"
    ++ "- Lote sugerido: " ++ renderCents (lotSizeCentsOf i) ++ " mini lotes\n"
    ++ "- Observação: " ++ riskNotes i.profile ++ " " ++ automationTips i.automationLevel

/-- `handleGenerate`: parse the form state with `strategySchema`; on success
return `buildStrategy`, on failure return the message of the first issue. -/
def derive (i : StrategyInput) : Except String String :=
  match strategyIssues i with
  | [] => Except.ok (buildStrategy i)
  | m :: _ => Except.error m

/-- The spec-level validity predicate: the conjunction of the six field
constraints of §4.1 (enums, `capital ≥ 100`, `riskPerTrade ∈ [0.1, 5]`,
at least one indicator). -/
def isValid (i : StrategyInput) : Prop :=
  i.profile ∈ profileValues ∧ 100 ≤ i.capital
    ∧ 0.1 ≤ i.riskPerTrade ∧ i.riskPerTrade ≤ 5
    ∧ 1 ≤ i.indicators.length
    ∧ i.session ∈ sessionValues ∧ i.automationLevel ∈ automationValues

instance (i : StrategyInput) : Decidable (isValid i) := by
  unfold isValid; infer_instance


/-- An input that is valid for `strategySchema` but whose indicator list
contains a string outside the five-element catalog. -/
def exOffCatalog : StrategyInput :=
  { profile := "Swing", capital := 500, riskPerTrade := 2,
    indicators := ["foo"], session := "Nova York", automationLevel := "Manual" }

/-- An input whose profile is not an enum value and whose capital is below 100. -/
def exBadProfileLowCapital : StrategyInput :=
  { profile := "Momentum", capital := 50, riskPerTrade := 1,
    indicators := ["MACD"], session := "Londres", automationLevel := "Manual" }

/-- An input with a valid profile but capital below 100. -/
def lowCapitalInput : StrategyInput :=
  { profile := "Day Trade", capital := 50, riskPerTrade := 1,
    indicators := ["MACD"], session := "Londres", automationLevel := "Manual" }

/-- The numeric scenario input of the spec: Day Trade, 1000 USD, 1 percent,
one indicator, London session, semi-autonomous automation. -/
def dayTradeInput : StrategyInput :=
  { profile := "Day Trade", capital := 1000, riskPerTrade := 1,
    indicators := ["EMA"], session := "Londres", automationLevel := "Semi-Autônomo" }

/-- The Scalping numeric scenario with capital 2000 and risk 2 percent. -/
def scalpingInput : StrategyInput :=
  { profile := "Scalping", capital := 2000, riskPerTrade := 2,
    indicators := ["MACD"], session := "Tóquio", automationLevel := "Total" }

/-- A family of otherwise-valid inputs indexed by the risk percentage. -/
def riskInput (r : ℚ) : StrategyInput :=
  { profile := "Day Trade", capital := 1000, riskPerTrade := r,
    indicators := ["MACD"], session := "Londres", automationLevel := "Manual" }

/-- The `defaultState` form value of the page. -/
def defaultInput : StrategyInput :=
  { profile := "Day Trade", capital := 1000, riskPerTrade := 1,
    indicators := ["Média Móvel Exponencial (EMA)", "Índice de Força Relativa (RSI)"],
    session := "Londres", automationLevel := "Semi-Autônomo" }

/-- `defaultInput` with every indicator deselected. -/
def noIndicatorsInput : StrategyInput :=
  { profile := "Day Trade", capital := 1000, riskPerTrade := 1,
    indicators := [], session := "Londres", automationLevel := "Semi-Autônomo" }

/-- `defaultInput` with the automation level switched to Total. -/
def totalAutomationInput : StrategyInput :=
  { profile := "Day Trade", capital := 1000, riskPerTrade := 1,
    indicators := ["Média Móvel Exponencial (EMA)", "Índice de Força Relativa (RSI)"],
    session := "Londres", automationLevel := "Total" }

theorem list_ite_nil_pos {c : Prop} [Decidable c] (m : String) :
    (if c then ([] : List String) else [m]) = [] ↔ c := by
  split
  · simp [*]
  · simp [*]

theorem list_ite_nil_neg {c : Prop} [Decidable c] (m : String) :
    (if c then [m] else ([] : List String)) = [] ↔ ¬c := by
  split
  · simp [*]
  · simp [*]

/-- The zod parse succeeds exactly when all six field constraints hold. -/
theorem strategyIssues_eq_nil_iff (i : StrategyInput) :
    strategyIssues i = [] ↔ isValid i := by
  unfold strategyIssues isValid
  simp only [List.append_eq_nil, list_ite_nil_pos, list_ite_nil_neg, not_lt, and_assoc]

/-- On a valid input the parse throws nothing and the report is returned. -/
theorem derive_ok_of_valid (i : StrategyInput) (h : isValid i) :
    derive i = Except.ok (buildStrategy i) := by
  have h0 : strategyIssues i = [] := (strategyIssues_eq_nil_iff i).mpr h
  simp [derive, h0]

/-- On an invalid input the parse throws and an error message is surfaced. -/
theorem derive_error_of_invalid (i : StrategyInput) (h : ¬ isValid i) :
    ∃ e, derive i = Except.error e := by
  cases h0 : strategyIssues i with
  | nil => exact absurd ((strategyIssues_eq_nil_iff i).mp h0) h
  | cons m t => exact ⟨m, by simp [derive, h0]⟩

/-- C1, counterexample: the input `exOffCatalog`, whose indicator list is
`["foo"]` with `"foo"` outside the five-indicator catalog, is accepted by the
validator and derivation proceeds, refuting the part of C1 that says such
inputs are rejected. -/
theorem c1_off_catalog_accepted :
    (derive exOffCatalog).isOk = true
      ∧ "foo" ∈ exOffCatalog.indicators ∧ "foo" ∉ indicatorOptions := by
  have hv : isValid exOffCatalog :=
    ⟨by decide, by decide, by norm_num [exOffCatalog], by norm_num [exOffCatalog],
     by decide, by decide, by decide⟩
  refine ⟨?_, by decide, by decide⟩
  rw [derive_ok_of_valid _ hv]
  rfl

/-- C1, amended: an input is accepted by the validator exactly when the three
enum fields are enum values, capital is at least 100, the risk percentage lies
in [0.1, 5] and the indicator list is nonempty; membership of the indicator
strings in the five-indicator catalog is not part of the acceptance
condition. -/
theorem c1_validator_acceptance_characterization (i : StrategyInput) :
    (derive i).isOk = true ↔ isValid i := by
  constructor
  · intro hok
    by_contra hv
    obtain ⟨e, he⟩ := derive_error_of_invalid i hv
    rw [he] at hok
    exact Bool.noConfusion hok
  · intro hv
    rw [derive_ok_of_valid i hv]
    rfl

/-- C2, counterexample: for the input with profile "Momentum" (invalid) and
capital 50 (below 100), `derive` fails with the profile enum message, which is
not the capital-constraint message, refuting the claim that the capital
message is reported regardless of the validity of the other fields. -/
theorem c2_profile_error_shadows_capital :
    exBadProfileLowCapital.capital < 100
      ∧ derive exBadProfileLowCapital
          = Except.error (enumErrorMessage profileValues "Momentum")
      ∧ enumErrorMessage profileValues "Momentum" ≠ capitalTooSmallMsg :=
  ⟨by decide, rfl, by decide⟩

/-- C2, amended: every input with capital below 100 is rejected, and whenever
the profile field is valid (so that the capital rule is the first failing
rule) the reported message is the capital-constraint message, regardless of
the later-checked fields. -/
theorem c2_low_capital_rejected (i : StrategyInput) (hc : i.capital < 100) :
    (∃ e, derive i = Except.error e)
      ∧ (i.profile ∈ profileValues → derive i = Except.error capitalTooSmallMsg) := by
  constructor
  · refine derive_error_of_invalid i ?_
    intro hv
    exact absurd hc (not_lt.mpr hv.2.1)
  · intro hp
    simp [derive, strategyIssues, hp, hc]

/-- Witness for the amended C2 at a concrete low-capital input. -/
theorem c2_low_capital_rejected_witness :
    (∃ e, derive lowCapitalInput = Except.error e)
      ∧ derive lowCapitalInput = Except.error capitalTooSmallMsg := by
  have h := c2_low_capital_rejected lowCapitalInput (by decide)
  exact ⟨h.1, h.2 (by decide)⟩

/-- C3, confirmed: on any invalid input the reported message identifies
exactly the first failing rule in the priority order profile, capital,
riskPerTrade, indicators, session, automationLevel, and no derivation is
attempted (the result is an error). -/
theorem c3_first_failing_rule_reported (i : StrategyInput) :
    (i.profile ∉ profileValues →
        derive i = Except.error (enumErrorMessage profileValues i.profile))
      ∧ (i.profile ∈ profileValues → i.capital < 100 →
        derive i = Except.error capitalTooSmallMsg)
      ∧ (i.profile ∈ profileValues → 100 ≤ i.capital → i.riskPerTrade < 0.1 →
        derive i = Except.error riskTooSmallMsg)
      ∧ (i.profile ∈ profileValues → 100 ≤ i.capital → 0.1 ≤ i.riskPerTrade →
        5 < i.riskPerTrade → derive i = Except.error riskTooBigMsg)
      ∧ (i.profile ∈ profileValues → 100 ≤ i.capital → 0.1 ≤ i.riskPerTrade →
        i.riskPerTrade ≤ 5 → i.indicators = [] →
        derive i = Except.error indicatorsTooSmallMsg)
      ∧ (i.profile ∈ profileValues → 100 ≤ i.capital → 0.1 ≤ i.riskPerTrade →
        i.riskPerTrade ≤ 5 → 1 ≤ i.indicators.length → i.session ∉ sessionValues →
        derive i = Except.error (enumErrorMessage sessionValues i.session))
      ∧ (i.profile ∈ profileValues → 100 ≤ i.capital → 0.1 ≤ i.riskPerTrade →
        i.riskPerTrade ≤ 5 → 1 ≤ i.indicators.length → i.session ∈ sessionValues →
        i.automationLevel ∉ automationValues →
        derive i = Except.error (enumErrorMessage automationValues i.automationLevel)) := by
  refine ⟨?_, ?_, ?_, ?_, ?_, ?_, ?_⟩
  · intro h1
    simp [derive, strategyIssues, h1]
  · intro h1 h2
    simp [derive, strategyIssues, h1, h2]
  · intro h1 h2 h3
    simp [derive, strategyIssues, h1, h3, not_lt.mpr h2]
  · intro h1 h2 h3 h4
    simp [derive, strategyIssues, h1, h4, not_lt.mpr h2, not_lt.mpr h3]
  · intro h1 h2 h3 h4 h5
    simp [derive, strategyIssues, h1, h5, not_lt.mpr h2, not_lt.mpr h3, not_lt.mpr h4]
  · intro h1 h2 h3 h4 h5 h6
    simp [derive, strategyIssues, h1, h6, not_lt.mpr h2, not_lt.mpr h3, not_lt.mpr h4,
      not_lt.mpr h5]
  · intro h1 h2 h3 h4 h5 h6 h7
    simp [derive, strategyIssues, h1, h6, h7, not_lt.mpr h2, not_lt.mpr h3, not_lt.mpr h4,
      not_lt.mpr h5]

/-- Witness for C3 at a concrete input whose first failing rule is capital. -/
theorem c3_first_failing_rule_reported_witness :
    derive lowCapitalInput = Except.error capitalTooSmallMsg :=
  (c3_first_failing_rule_reported lowCapitalInput).2.1 (by decide) (by decide)

set_option maxRecDepth 8000 in
/-- C4, confirmed: on the Day Trade scenario input (capital 1000, risk 1
percent, indicator list ["EMA"], London session, semi-autonomous automation),
derive succeeds and the derived values are risk capital 10 (rendered
"10.00"), stop loss 20 pips, take profit 40 pips and lot size 0.33, exactly
as rendered in the report. -/
theorem c4_day_trade_scenario :
    derive dayTradeInput = Except.ok (buildStrategy dayTradeInput)
      ∧ riskCapitalOf dayTradeInput = 10
      ∧ toFixed2 (riskCapitalOf dayTradeInput) = "10.00"
      ∧ stopLossPipsOf dayTradeInput = 20
      ∧ takeProfitPipsOf dayTradeInput = 40
      ∧ lotSizeOf dayTradeInput = 0.33
      ∧ buildStrategy dayTradeInput =
          "Estratégia Day Trade Londres\n- Indicadores principais: EMA\n- Sessão: Alta liquidez em pares EUR/GBP, volatilidade consistente.\n- Risco por trade: 1.00% (10.00 USD)\n- Stop loss médio: 20 pips | Take profit: 40 pips\n- Lote sugerido: 0.33 mini lotes\n- Observação: Combine confirmação de tendência com filtro de volatilidade. Automatize entradas/saídas e mantenha supervisão humana para ajustes." := by
  have hv : isValid dayTradeInput :=
    ⟨by decide, by decide, by norm_num [dayTradeInput], by norm_num [dayTradeInput],
     by decide, by decide, by decide⟩
  have hrc : riskCapitalOf dayTradeInput = 10 := by
    norm_num [riskCapitalOf, dayTradeInput]
  have hsl : stopLossPipsOf dayTradeInput = 20 := by decide
  have htm : takeProfitMultiplierOf dayTradeInput = 2 := by decide
  have htp : takeProfitPipsOf dayTradeInput = 40 := by
    simp only [takeProfitPipsOf, hsl, htm]
    norm_num [toFixedRound]
  have hlc : lotSizeCentsOf dayTradeInput = 33 := by
    simp only [lotSizeCentsOf, hrc, hsl]
    norm_num [toFixedRound]
  have hlot : lotSizeOf dayTradeInput = 0.33 := by
    simp only [lotSizeOf, hlc]; norm_num
  have h100 : toFixedRound (dayTradeInput.riskPerTrade * 100) = 100 := by
    norm_num [toFixedRound, dayTradeInput]
  have hfr : toFixed2 dayTradeInput.riskPerTrade = "1.00" := by
    simp only [toFixed2, h100]; decide
  have h1000 : toFixedRound (riskCapitalOf dayTradeInput * 100) = 1000 := by
    rw [hrc]; norm_num [toFixedRound]
  have hfc : toFixed2 (riskCapitalOf dayTradeInput) = "10.00" := by
    simp only [toFixed2, h1000]; decide
  have hf0 : toFixed0 ((stopLossPipsOf dayTradeInput : ℚ)
      * takeProfitMultiplierOf dayTradeInput) = "40" := by
    show toString (takeProfitPipsOf dayTradeInput) = "40"
    rw [htp]; decide
  have hrend : renderCents (lotSizeCentsOf dayTradeInput) = "0.33" := by
    rw [hlc]; decide
  have hrep : buildStrategy dayTradeInput =
      "Estratégia Day Trade Londres\n- Indicadores principais: EMA\n- Sessão: Alta liquidez em pares EUR/GBP, volatilidade consistente.\n- Risco por trade: 1.00% (10.00 USD)\n- Stop loss médio: 20 pips | Take profit: 40 pips\n- Lote sugerido: 0.33 mini lotes\n- Observação: Combine confirmação de tendência com filtro de volatilidade. Automatize entradas/saídas e mantenha supervisão humana para ajustes." := by
    simp only [buildStrategy, hfr, hfc, hf0, hrend]
    decide
  exact ⟨derive_ok_of_valid dayTradeInput hv, hrc, hfc, hsl, htp, hlot, hrep⟩

/-- C5, confirmed: for every input with profile Scalping, capital 2000, risk
2 percent and otherwise valid fields, derive succeeds with risk capital 40
(rendered "40.00"), stop loss 8 pips, take profit 10 pips (8 times 1.2 is
9.6, rounded half away from zero to 10) and lot size 3.33. -/
theorem c5_scalping_scenario (i : StrategyInput)
    (hp : i.profile = "Scalping") (hc : i.capital = 2000) (hr : i.riskPerTrade = 2)
    (hind : 1 ≤ i.indicators.length) (hs : i.session ∈ sessionValues)
    (ha : i.automationLevel ∈ automationValues) :
    derive i = Except.ok (buildStrategy i)
      ∧ riskCapitalOf i = 40
      ∧ toFixed2 (riskCapitalOf i) = "40.00"
      ∧ stopLossPipsOf i = 8
      ∧ takeProfitPipsOf i = 10
      ∧ toFixed0 ((stopLossPipsOf i : ℚ) * takeProfitMultiplierOf i) = "10"
      ∧ lotSizeOf i = 3.33
      ∧ renderCents (lotSizeCentsOf i) = "3.33" := by
  have hv : isValid i := by
    refine ⟨?_, ?_, ?_, ?_, hind, hs, ha⟩
    · rw [hp]; decide
    · rw [hc]; norm_num
    · rw [hr]; norm_num
    · rw [hr]; norm_num
  have hrc : riskCapitalOf i = 40 := by
    simp only [riskCapitalOf, hc, hr]; norm_num
  have hsl : stopLossPipsOf i = 8 := by simp [stopLossPipsOf, hp]
  have htm : takeProfitMultiplierOf i = 1.2 := by simp [takeProfitMultiplierOf, hp]
  have htp : takeProfitPipsOf i = 10 := by
    simp only [takeProfitPipsOf, hsl, htm]
    norm_num [toFixedRound]
  have hlc : lotSizeCentsOf i = 333 := by
    simp only [lotSizeCentsOf, hrc, hsl]
    norm_num [toFixedRound]
  have h4000 : toFixedRound (riskCapitalOf i * 100) = 4000 := by
    rw [hrc]; norm_num [toFixedRound]
  have hfc : toFixed2 (riskCapitalOf i) = "40.00" := by
    simp only [toFixed2, h4000]; decide
  have hf0 : toFixed0 ((stopLossPipsOf i : ℚ) * takeProfitMultiplierOf i) = "10" := by
    show toString (takeProfitPipsOf i) = "10"
    rw [htp]; decide
  have hlot : lotSizeOf i = 3.33 := by
    simp only [lotSizeOf, hlc]; norm_num
  have hrend : renderCents (lotSizeCentsOf i) = "3.33" := by
    rw [hlc]; decide
  exact ⟨derive_ok_of_valid i hv, hrc, hfc, hsl, htp, hf0, hlot, hrend⟩

/-- Witness for C5 at a concrete Scalping input. -/
theorem c5_scalping_scenario_witness :
    derive scalpingInput = Except.ok (buildStrategy scalpingInput)
      ∧ riskCapitalOf scalpingInput = 40
      ∧ toFixed2 (riskCapitalOf scalpingInput) = "40.00"
      ∧ stopLossPipsOf scalpingInput = 8
      ∧ takeProfitPipsOf scalpingInput = 10
      ∧ toFixed0 ((stopLossPipsOf scalpingInput : ℚ)
          * takeProfitMultiplierOf scalpingInput) = "10"
      ∧ lotSizeOf scalpingInput = 3.33
      ∧ renderCents (lotSizeCentsOf scalpingInput) = "3.33" :=
  c5_scalping_scenario scalpingInput rfl rfl rfl (by decide) (by decide) (by decide)

/-- C6, confirmed: with the other five fields valid, the riskPerTrade bounds
are inclusive: 5 and 0.1 are accepted, while 5.1 and 0.09 are rejected by
validation. -/
theorem c6_risk_bounds_inclusive (i : StrategyInput)
    (hp : i.profile ∈ profileValues) (hc : 100 ≤ i.capital)
    (hind : 1 ≤ i.indicators.length) (hs : i.session ∈ sessionValues)
    (ha : i.automationLevel ∈ automationValues) :
    (i.riskPerTrade = 5 → (derive i).isOk = true)
      ∧ (i.riskPerTrade = 0.1 → (derive i).isOk = true)
      ∧ (i.riskPerTrade = 5.1 → ∃ e, derive i = Except.error e)
      ∧ (i.riskPerTrade = 0.09 → ∃ e, derive i = Except.error e) := by
  refine ⟨?_, ?_, ?_, ?_⟩
  · intro hr
    have hv : isValid i :=
      ⟨hp, hc, by rw [hr]; try norm_num, by rw [hr]; try norm_num, hind, hs, ha⟩
    rw [derive_ok_of_valid i hv]; rfl
  · intro hr
    have hv : isValid i :=
      ⟨hp, hc, by rw [hr]; try norm_num, by rw [hr]; try norm_num, hind, hs, ha⟩
    rw [derive_ok_of_valid i hv]; rfl
  · intro hr
    refine derive_error_of_invalid i ?_
    intro hv
    have hmax := hv.2.2.2.1
    rw [hr] at hmax
    norm_num at hmax
  · intro hr
    refine derive_error_of_invalid i ?_
    intro hv
    have hmin := hv.2.2.1
    rw [hr] at hmin
    norm_num at hmin

/-- Witness for C6 at the four boundary risk values on concrete inputs. -/
theorem c6_risk_bounds_inclusive_witness :
    (derive (riskInput 5)).isOk = true
      ∧ (derive (riskInput 0.1)).isOk = true
      ∧ (∃ e, derive (riskInput 5.1) = Except.error e)
      ∧ (∃ e, derive (riskInput 0.09) = Except.error e) :=
  ⟨(c6_risk_bounds_inclusive (riskInput 5) (by decide) (by decide) (by decide)
      (by decide) (by decide)).1 rfl,
   (c6_risk_bounds_inclusive (riskInput 0.1) (by decide) (by decide) (by decide)
      (by decide) (by decide)).2.1 rfl,
   (c6_risk_bounds_inclusive (riskInput 5.1) (by decide) (by decide) (by decide)
      (by decide) (by decide)).2.2.1 rfl,
   (c6_risk_bounds_inclusive (riskInput 0.09) (by decide) (by decide) (by decide)
      (by decide) (by decide)).2.2.2 rfl⟩

/-- C7, confirmed: for every valid input derive succeeds and the report is
the newline-join, in this fixed order, of: a title line containing profile
and session verbatim; the comma-joined indicators line; the
session-characteristics line; the risk line with percentage and currency
amount to two decimals; the stop-loss and take-profit line in pips; the
lot-size line; and the observation line concatenating the profile risk note
and the automation-level tip. -/
theorem c7_report_structure (i : StrategyInput) (h : isValid i) :
    derive i = Except.ok (buildStrategy i)
      ∧ buildStrategy i = String.intercalate "\n"
          ["Estratégia " ++ i.profile ++ " " ++ i.session,
           "- Indicadores principais: " ++ String.intercalate ", " i.indicators,
           "- Sessão: " ++ sessionCharacteristics i.session,
           "- Risco por trade: " ++ toFixed2 i.riskPerTrade ++ "% ("
             ++ toFixed2 (riskCapitalOf i) ++ " USD)",
           "- Stop loss médio: " ++ toString (stopLossPipsOf i)
             ++ " pips | Take profit: "
             ++ toFixed0 ((stopLossPipsOf i : ℚ) * takeProfitMultiplierOf i)
             ++ " pips",
           "- Lote sugerido: " ++ renderCents (lotSizeCentsOf i) ++ " mini lotes",
           "- Observação: " ++ riskNotes i.profile ++ " "
             ++ automationTips i.automationLevel] := by
  refine ⟨derive_ok_of_valid i h, ?_⟩
  have e1 : (" USD)\n" : String) = " USD)" ++ "\n" := rfl
  have e2 : (" pips\n" : String) = " pips" ++ "\n" := rfl
  have e3 : (" mini lotes\n" : String) = " mini lotes" ++ "\n" := rfl
  simp only [String.intercalate, String.intercalate.go, buildStrategy, e1, e2, e3,
    String.append_assoc]

/-- Witness for C7 at the default form state. -/
theorem c7_report_structure_witness :
    derive defaultInput = Except.ok (buildStrategy defaultInput)
      ∧ buildStrategy defaultInput = String.intercalate "\n"
          ["Estratégia " ++ defaultInput.profile ++ " " ++ defaultInput.session,
           "- Indicadores principais: "
             ++ String.intercalate ", " defaultInput.indicators,
           "- Sessão: " ++ sessionCharacteristics defaultInput.session,
           "- Risco por trade: " ++ toFixed2 defaultInput.riskPerTrade ++ "% ("
             ++ toFixed2 (riskCapitalOf defaultInput) ++ " USD)",
           "- Stop loss médio: " ++ toString (stopLossPipsOf defaultInput)
             ++ " pips | Take profit: "
             ++ toFixed0 ((stopLossPipsOf defaultInput : ℚ)
                  * takeProfitMultiplierOf defaultInput)
             ++ " pips",
           "- Lote sugerido: " ++ renderCents (lotSizeCentsOf defaultInput)
             ++ " mini lotes",
           "- Observação: " ++ riskNotes defaultInput.profile ++ " "
             ++ automationTips defaultInput.automationLevel] :=
  c7_report_structure defaultInput
    ⟨by decide, by decide, by norm_num [defaultInput], by norm_num [defaultInput],
     by decide, by decide, by decide⟩

/-- C8, confirmed: every input with an empty indicators sequence is rejected,
in particular even when all the other fields satisfy their constraints. -/
theorem c8_empty_indicators_rejected (i : StrategyInput) (h : i.indicators = []) :
    ∃ e, derive i = Except.error e := by
  refine derive_error_of_invalid i ?_
  intro hv
  have hlen := hv.2.2.2.2.1
  rw [h] at hlen
  simp at hlen

/-- Witness for C8: the default state with every indicator deselected. -/
theorem c8_empty_indicators_rejected_witness :
    ∃ e, derive noIndicatorsInput = Except.error e :=
  c8_empty_indicators_rejected noIndicatorsInput rfl

/-- C9, confirmed: for every valid input the stop loss is the fixed positive
constant of its profile (Scalping 8, Day Trade 20, Swing 45), so the lot-size
divisor stopLossPips * 1.5 is nonzero and the division cannot divide by
zero. -/
theorem c9_divisor_nonzero (i : StrategyInput) (_h : isValid i) :
    (i.profile = "Scalping" → stopLossPipsOf i = 8)
      ∧ (i.profile = "Day Trade" → stopLossPipsOf i = 20)
      ∧ (i.profile = "Swing" → stopLossPipsOf i = 45)
      ∧ (stopLossPipsOf i = 8 ∨ stopLossPipsOf i = 20 ∨ stopLossPipsOf i = 45)
      ∧ (stopLossPipsOf i : ℚ) * 1.5 ≠ 0 := by
  have hmem : stopLossPipsOf i = 8 ∨ stopLossPipsOf i = 20 ∨ stopLossPipsOf i = 45 := by
    unfold stopLossPipsOf
    split_ifs <;> simp
  refine ⟨?_, ?_, ?_, hmem, ?_⟩
  · intro hp; simp [stopLossPipsOf, hp]
  · intro hp; simp [stopLossPipsOf, hp]
  · intro hp; simp [stopLossPipsOf, hp]
  · rcases hmem with h0 | h0 | h0 <;> rw [h0] <;> norm_num

/-- Witness for C9 at the default form state. -/
theorem c9_divisor_nonzero_witness :
    (stopLossPipsOf defaultInput = 8 ∨ stopLossPipsOf defaultInput = 20
        ∨ stopLossPipsOf defaultInput = 45)
      ∧ (stopLossPipsOf defaultInput : ℚ) * 1.5 ≠ 0 := by
  have h := c9_divisor_nonzero defaultInput
    ⟨by decide, by decide, by norm_num [defaultInput], by norm_num [defaultInput],
     by decide, by decide, by decide⟩
  exact ⟨h.2.2.2.1, h.2.2.2.2⟩

/-- C10, confirmed: two valid inputs that agree on every field except the
automation level have identical derived numeric values (risk capital, stop
loss, take profit, lot size), and their reports share one common prefix
(running through the observation-line risk note), differing only in the
trailing automation tip. -/
theorem c10_automation_only_observation (a b : StrategyInput)
    (hva : isValid a) (hvb : isValid b)
    (h1 : a.profile = b.profile) (h2 : a.capital = b.capital)
    (h3 : a.riskPerTrade = b.riskPerTrade) (h4 : a.indicators = b.indicators)
    (h5 : a.session = b.session) :
    riskCapitalOf a = riskCapitalOf b
      ∧ stopLossPipsOf a = stopLossPipsOf b
      ∧ takeProfitPipsOf a = takeProfitPipsOf b
      ∧ lotSizeOf a = lotSizeOf b
      ∧ ∃ p, buildStrategy a = p ++ automationTips a.automationLevel
          ∧ buildStrategy b = p ++ automationTips b.automationLevel := by
  obtain ⟨pa, ca, ra, ia, sa, la⟩ := a
  obtain ⟨pb, cb, rb, ib, sb, lb⟩ := b
  dsimp only at h1 h2 h3 h4 h5
  subst h1 h2 h3 h4 h5
  exact ⟨rfl, rfl, rfl, rfl, _, rfl, rfl⟩

/-- Witness for C10: the default state against its Total-automation variant. -/
theorem c10_automation_only_observation_witness :
    riskCapitalOf defaultInput = riskCapitalOf totalAutomationInput
      ∧ stopLossPipsOf defaultInput = stopLossPipsOf totalAutomationInput
      ∧ takeProfitPipsOf defaultInput = takeProfitPipsOf totalAutomationInput
      ∧ lotSizeOf defaultInput = lotSizeOf totalAutomationInput
      ∧ ∃ p, buildStrategy defaultInput
            = p ++ automationTips defaultInput.automationLevel
          ∧ buildStrategy totalAutomationInput
            = p ++ automationTips totalAutomationInput.automationLevel :=
  c10_automation_only_observation defaultInput totalAutomationInput
    ⟨by decide, by decide, by norm_num [defaultInput], by norm_num [defaultInput],
     by decide, by decide, by decide⟩
    ⟨by decide, by decide, by norm_num [totalAutomationInput],
     by norm_num [totalAutomationInput], by decide, by decide, by decide⟩
    rfl rfl rfl rfl rfl

end Strategy
